import Mathlib

/-!
Shallow embedding of the two ETL pipelines in this repository
(`Mailchimp_ETL_Pipe/main.py` and `ga_etl/main.py`) and proofs about them.

Numeric cells are modelled as exact rationals together with the explicit
non-finite values (`nan`, `inf`, `ninf`) that pandas float arithmetic
produces on zero division; the claims settled here depend only on which
zero-division branch is taken, never on rounding, so the rational model is
faithful on those points.
-/

namespace ETL

/-- A pandas numeric cell: a finite value, NaN, +inf or -inf. -/
inductive PdVal where
  | num (q : ℚ)
  | nan
  | inf
  | ninf
deriving DecidableEq, Repr

/-- Pandas true division `a / b` on numeric columns: division by zero yields
`inf`/`-inf` for a nonzero numerator and `NaN` for `0/0`. -/
def pdDiv (a b : ℚ) : PdVal :=
  if b ≠ 0 then .num (a / b)
  else if 0 < a then .inf
  else if a < 0 then .ninf
  else .nan

/-- Multiplication of a pandas cell by a finite scalar constant. -/
def pdMulC (v : PdVal) (k : ℚ) : PdVal :=
  match v with
  | .num q => .num (q * k)
  | .nan => .nan
  | .inf => if 0 < k then .inf else if k < 0 then .ninf else .nan
  | .ninf => if 0 < k then .ninf else if k < 0 then .inf else .nan

/-- `Series.fillna(0)`: replaces `NaN` (and only `NaN`) by `0`; in
particular `inf` is left untouched. -/
def fillna0 : PdVal → PdVal
  | .nan => .num 0
  | v => v

/-- `main.py` `transform_data`, campaigns branch, lines 236-237:
`df['engagement_rate'] = (df['unique_opens'] + df['unique_clicks']) / df['emails_sent'] * 100`
followed by `df['engagement_rate'].fillna(0)`. -/
def engagement_rate (unique_opens unique_clicks emails_sent : ℚ) : PdVal :=
  fillna0 (pdMulC (pdDiv (unique_opens + unique_clicks) emails_sent) 100)

/-- `pd.cut(x, bins=[0, 15, 25, 35, 100], labels=['Low','Medium','High','Excellent'])`
with the default `right=True`, `include_lowest=False`: the bins are the
right-closed intervals `(0,15]`, `(15,25]`, `(25,35]`, `(35,100]`, and a
value outside `(0,100]` gets no label (NaN category, modelled as `none`). -/
def cutOpenRate (x : ℚ) : Option String :=
  if 0 < x ∧ x ≤ 15 then some "Low"
  else if 15 < x ∧ x ≤ 25 then some "Medium"
  else if 25 < x ∧ x ≤ 35 then some "High"
  else if 35 < x ∧ x ≤ 100 then some "Excellent"
  else none

/-- `main.py` `transform_data`, campaigns branch, lines 240-244:
`df['performance_category'] = pd.cut(df['open_rate'] * 100, ...)`. -/
def performance_category (open_rate : ℚ) : Option String :=
  cutOpenRate (open_rate * 100)

/-- One HTTP response as seen by `requests.get`: status code and body. -/
structure HttpResponse where
  status : Nat
  body : String
deriving DecidableEq, Repr

/-- `main.py` `_make_request`, lines 45-61, run against a script of
responses (the transport hands over the next scripted response on each
`requests.get`; an exhausted script is a transport failure).
The code first calls `response.raise_for_status()`, which raises
`HTTPError` for every 4xx/5xx status; only then does it compare
`response.status_code` with 429, sleep 60 s and recurse.  The result
carries the body together with the total seconds slept; the `except`
block logs and re-raises, i.e. is the identity on errors. -/
def make_request : List HttpResponse → Except String (String × Nat)
  | [] => .error "ConnectionError"
  | r :: rest =>
    if 400 ≤ r.status then .error "HTTPError"
    else if r.status = 429 then
      match make_request rest with
      | .ok (b, slept) => .ok (b, slept + 60)
      | .error e => .error e
    else .ok (r.body, 0)

/-- `main.py` `transform_data`, members branch, lines 258-261: the static
`country_mapping` dict. -/
def country_mapping (c : String) : Option String :=
  if c = "UA" then some "Ukraine"
  else if c = "RU" then some "Russia"
  else if c = "US" then some "United States"
  else if c = "GB" then some "United Kingdom"
  else if c = "DE" then some "Germany"
  else if c = "FR" then some "France"
  else none

/-- `main.py` `transform_data`, members branch, lines 262-263:
`df['country_name'] = df['country_code'].map(country_mapping)` followed by
`df['country_name'].fillna(df['country_code'])`.  A null `country_code`
maps to NaN and `fillna` with a null filler leaves it NaN. -/
def country_name (country_code : Option String) : Option String :=
  match country_code with
  | none => none
  | some c =>
    match country_mapping c with
    | some n => some n
    | none => some c

/-- The two metric columns of the GA frame that feed
`avg_engagement_duration`; `none` means the column is absent from the
report. -/
structure GAFrame where
  userEngagementDuration : Option (List ℚ)
  sessions : Option (List ℚ)

/-- One entry of `ga_etl/main.py` `transform_data`, lines 145-146:
`df['avg_engagement_duration'] = df['userEngagementDuration'] / df['sessions']`
then `.fillna(0)`. -/
def avgEngagementEntry (dur s : ℚ) : PdVal :=
  fillna0 (pdDiv dur s)

/-- `ga_etl/main.py` `transform_data`, lines 144-146: the derived column is
created only when both source columns are present
(`if 'userEngagementDuration' in df.columns and 'sessions' in df.columns`);
otherwise no `avg_engagement_duration` column exists (`none`). -/
def addAvgEngagement (f : GAFrame) : Option (List PdVal) :=
  match f.userEngagementDuration, f.sessions with
  | some ds, some ss => some ((ds.zip ss).map fun p => avgEngagementEntry p.1 p.2)
  | _, _ => none

/-- A member's `location` sub-object (`member.get('location', {})`). -/
structure Location where
  country_code : Option String
  timezone : Option String
  latitude : Option ℚ
  longitude : Option ℚ
deriving DecidableEq, Repr

/-- One raw member entity as returned by the members endpoint. -/
structure Member where
  id : String
  email_address : String
  status : String
  timestamp_signup : Option String
  timestamp_opt : Option String
  location : Option Location
  ip_signup : Option String
  ip_opt : Option String
  language : Option String
  member_rating : Option ℚ
  email_client : Option String
  tags_count : Option ℚ
deriving DecidableEq, Repr

/-- The flat row record built per member in `extract_members`. -/
structure MemberRow where
  member_id : String
  email : String
  status : String
  list_id : String
  timestamp_signup : Option String
  timestamp_opt : Option String
  country_code : Option String
  timezone : Option String
  latitude : Option ℚ
  longitude : Option ℚ
  ip_signup : Option String
  ip_opt : Option String
  language : Option String
  member_rating : ℚ
  email_client : Option String
  tags_count : ℚ
deriving DecidableEq, Repr

/-- `main.py` `extract_members`, lines 173-194: flattening of one member
entity into a row, with the location sub-object defaulting to `{}` and
`member_rating`/`tags_count` defaulting to 0. -/
def flattenMember (list_id : String) (m : Member) : MemberRow :=
  { member_id := m.id
    email := m.email_address
    status := m.status
    list_id := list_id
    timestamp_signup := m.timestamp_signup
    timestamp_opt := m.timestamp_opt
    country_code := m.location.bind (·.country_code)
    timezone := m.location.bind (·.timezone)
    latitude := m.location.bind (·.latitude)
    longitude := m.location.bind (·.longitude)
    ip_signup := m.ip_signup
    ip_opt := m.ip_opt
    language := m.language
    member_rating := m.member_rating.getD 0
    email_client := m.email_client
    tags_count := m.tags_count.getD 0 }

/-- The page served for a given `offset` by a member source backed by the
finite member list `ms` with page size `count = 1000`
(`params = {count: 1000, offset: offset, status: status}`). -/
def memberPage (ms : List Member) (offset : Nat) : List Member :=
  (ms.drop offset).take 1000

/-- `main.py` `extract_members`, lines 156-200: the `while True` paging
loop, starting from `offset`, with `reqs` requests already issued.  Each
iteration issues one page request; an empty page breaks the loop, a
non-empty one contributes its flattened rows and advances the offset by
the page size.  `fuel` bounds the number of remaining iterations so the
loop is total in the embedding; `none` means the fuel ran out before the
loop broke. -/
def extract_members_loop (list_id : String) (ms : List Member) :
    Nat → Nat → Nat → Option (List MemberRow × Nat)
  | 0, _, _ => none
  | fuel + 1, offset, reqs =>
    let page := memberPage ms offset
    if page.isEmpty then some ([], reqs + 1)
    else
      match extract_members_loop list_id ms fuel (offset + 1000) (reqs + 1) with
      | some (rows, r) => some (page.map (flattenMember list_id) ++ rows, r)
      | none => none

/-- `extract_members` for a list-backed paged source: run the loop from
`offset = 0` with no requests issued yet. -/
def extract_members (list_id : String) (ms : List Member) (fuel : Nat) :
    Option (List MemberRow × Nat) :=
  extract_members_loop list_id ms fuel 0 0

/-- The columns of a transformed campaigns row used by the summary
dashboard. -/
structure CampaignRow where
  open_rate : ℚ
  click_rate : ℚ
  emails_sent : ℚ
deriving DecidableEq, Repr

/-- The columns of a transformed lists row used by the summary dashboard. -/
structure ListRow where
  member_count : ℚ
  unsubscribe_count : ℚ
deriving DecidableEq, Repr

/-- The column of a transformed members row used by the summary dashboard;
`country_name` may be null. -/
structure MemberSRow where
  country_name : Option String
deriving DecidableEq, Repr

/-- The `dataframes_dict` passed to `load_data`: `run_etl` inserts the keys
`'lists'`, `'campaigns'`, `'members'` in that order, each optionally
(`none` = key absent, `some []` = present but empty table). -/
structure Frames where
  lists : Option (List ListRow)
  campaigns : Option (List CampaignRow)
  members : Option (List MemberSRow)

/-- Python `str.capitalize()`: first character upper-cased, the rest
lower-cased. -/
def pyCapitalize (s : String) : String :=
  match s.data with
  | [] => ""
  | c :: cs => ⟨c.toUpper :: cs.map Char.toLower⟩

/-- Python `str.lower()` (ASCII suffices for the format strings here). -/
def pyLower (s : String) : String :=
  ⟨s.data.map Char.toLower⟩

/-- `main.py` `load_data`, line 314: `data_type.capitalize()[:31]`. -/
def sheetName (s : String) : String :=
  ⟨(pyCapitalize s).data.take 31⟩

/-- A cell of the summary dashboard: a count, an exact numeric aggregate
(the `f"{...:.2f}"` presentation formatting is abstracted away), or text. -/
inductive SVal where
  | n (k : Nat)
  | q (x : ℚ)
  | s (t : String)
deriving DecidableEq, Repr

/-- Descending insertion by count, modelling the descending sort of
`Series.value_counts()`. -/
def insertByCount (p : String × Nat) : List (String × Nat) → List (String × Nat)
  | [] => [p]
  | q :: qs => if q.2 < p.2 then p :: q :: qs else q :: insertByCount p qs

/-- `Series.value_counts()`: occurrence counts of the (non-null) values,
sorted by count descending. -/
def valueCounts (xs : List String) : List (String × Nat) :=
  (xs.dedup.map fun c => (c, xs.count c)).foldr insertByCount []

/-- `main.py` `_create_summary_dashboard`, lines 348-382: summary rows
(`Metric`/`Value` pairs) built from whichever of the three tables are
present and non-empty; the members block counts subscribers per
`country_name` (`value_counts` drops nulls) and keeps the top 5. -/
def summaryDashboard (fr : Frames) : List (String × SVal) :=
  (match fr.campaigns with
   | some cs =>
     if cs.isEmpty then []
     else
       [("Total Campaigns", .n cs.length),
        ("Avg Open Rate (%)", .q ((cs.map (·.open_rate)).sum / cs.length * 100)),
        ("Avg Click Rate (%)", .q ((cs.map (·.click_rate)).sum / cs.length * 100)),
        ("Total Emails Sent", .q (cs.map (·.emails_sent)).sum)]
   | none => []) ++
  (match fr.lists with
   | some ls =>
     if ls.isEmpty then []
     else
       [("Total Lists", .n ls.length),
        ("Total Subscribers", .q (ls.map (·.member_count)).sum),
        ("Total Unsubscribes", .q (ls.map (·.unsubscribe_count)).sum)]
   | none => []) ++
  (match fr.members with
   | some ms =>
     if ms.isEmpty then []
     else
       ((valueCounts (ms.filterMap (·.country_name))).take 5).map
         fun p => ("Subscribers in " ++ p.1, .n p.2)
   | none => [])

/-- `main.py` `load_data`, excel branch, lines 311-320: the sheets of the
produced workbook, in write order — one sheet per present non-empty table
(named `data_type.capitalize()[:31]`), then a `'Dashboard'` sheet when the
summary is non-empty. -/
def excelSheets (fr : Frames) : List String :=
  (match fr.lists with
   | some l => if l.isEmpty then [] else [sheetName "lists"]
   | none => []) ++
  (match fr.campaigns with
   | some c => if c.isEmpty then [] else [sheetName "campaigns"]
   | none => []) ++
  (match fr.members with
   | some m => if m.isEmpty then [] else [sheetName "members"]
   | none => []) ++
  (if (summaryDashboard fr).isEmpty then [] else ["Dashboard"])

/-- `main.py` `load_data`, csv branch, lines 322-329: the table names that
get their own csv file — each present non-empty table. -/
def csvTables (fr : Frames) : List String :=
  (match fr.lists with
   | some l => if l.isEmpty then [] else ["lists"]
   | none => []) ++
  (match fr.campaigns with
   | some c => if c.isEmpty then [] else ["campaigns"]
   | none => []) ++
  (match fr.members with
   | some m => if m.isEmpty then [] else ["members"]
   | none => [])

/-- `main.py` `load_data`, json branch, lines 331-339: the top-level keys
of `combined_data` — each present non-empty table, in dict order. -/
def jsonKeys (fr : Frames) : List String :=
  (match fr.lists with
   | some l => if l.isEmpty then [] else ["lists"]
   | none => []) ++
  (match fr.campaigns with
   | some c => if c.isEmpty then [] else ["campaigns"]
   | none => []) ++
  (match fr.members with
   | some m => if m.isEmpty then [] else ["members"]
   | none => [])

/-- The artifact value returned by a successful `load_data`: one file path
(excel/json) or the list of per-table csv paths. -/
inductive Artifact where
  | single (path : String)
  | multi (paths : List String)
deriving DecidableEq, Repr

/-- Outcome of one `load_data` call: the returned value or the raised
exception, the per-table data files written, and whether the output
directory was created. -/
structure LoadOutcome where
  result : Except String Artifact
  filesWritten : List String
  dirCreated : Bool
deriving Repr

/-- `main.py` `load_data`, lines 292-346.  `os.makedirs('output', exist_ok=True)`
runs first, then the format branches (`excel`, `csv`, `json`, each compared
against `output_format.lower()`).  When no branch matches, the local
variable `filename` is never assigned, so the closing
`self.logger.info(f"... {filename}")` raises `NameError`, which the
`except` block logs and re-raises — no data file has been written. -/
def load_data_mc (fr : Frames) (output_format output_path ts : String) :
    LoadOutcome :=
  if pyLower output_format = "excel" then
    let fn := "output/" ++ output_path ++ "_" ++ ts ++ ".xlsx"
    ⟨.ok (.single fn), [fn], true⟩
  else if pyLower output_format = "csv" then
    let fns := (csvTables fr).map
      fun t => "output/" ++ output_path ++ "_" ++ t ++ "_" ++ ts ++ ".csv"
    ⟨.ok (.multi fns), fns, true⟩
  else if pyLower output_format = "json" then
    let fn := "output/" ++ output_path ++ "_" ++ ts ++ ".json"
    ⟨.ok (.single fn), [fn], true⟩
  else ⟨.error "NameError: name 'filename' is not defined", [], true⟩

/-- `ga_etl/main.py` `load_data`, lines 158-196: same structure with branch
order `csv`, `excel`, `json` and a single dataframe; an unrecognized format
likewise reaches the logging line with `filename` unbound and raises. -/
def load_data_ga (output_format output_path ts : String) : LoadOutcome :=
  if pyLower output_format = "csv" then
    let fn := "output/" ++ output_path ++ "_" ++ ts ++ ".csv"
    ⟨.ok (.single fn), [fn], true⟩
  else if pyLower output_format = "excel" then
    let fn := "output/" ++ output_path ++ "_" ++ ts ++ ".xlsx"
    ⟨.ok (.single fn), [fn], true⟩
  else if pyLower output_format = "json" then
    let fn := "output/" ++ output_path ++ "_" ++ ts ++ ".json"
    ⟨.ok (.single fn), [fn], true⟩
  else ⟨.error "NameError: name 'filename' is not defined", [], true⟩

/-- A cell value of a transformed dataframe (for the column-level model of
`transform_data`). -/
inductive Val where
  | num (q : ℚ)
  | str (s : String)
  | time (t : ℚ)
  | vnan
deriving DecidableEq, Repr

/-- `pd.DataFrame(list_of_dicts)`: the column set is the union of the row
keys in order of first appearance. -/
def unionKeys (raw : List (List (String × Val))) : List String :=
  raw.foldl (fun acc r => acc ++ ((r.map Prod.fst).filter fun k => k ∉ acc)) []

/-- `main.py` `transform_data`, lines 225-279: the columns added by the
per-type branch for a non-empty frame, each appended on first assignment.
The unconditional numeric derivations assume the extractor's schema, so
their source columns are present and the lookups succeed. -/
def transformAddedCols (data_type : String) (cols : List String) : List String :=
  if data_type = "campaigns" then
    cols ++ (if "send_time" ∈ cols then ["send_date", "send_hour"] else []) ++
      ["engagement_rate", "performance_category"]
  else if data_type = "members" then
    cols ++ (if "country_code" ∈ cols then ["country_name"] else []) ++
      (if "timestamp_signup" ∈ cols then ["days_since_signup"] else [])
  else if data_type = "lists" then
    cols ++ ["unsubscribe_rate"]
  else cols

/-- `main.py` `transform_data`, lines 218-283, at column granularity:
`df = pd.DataFrame(raw_data)`; an empty frame (`df.empty`: no rows or no
columns) is returned unchanged after a warning; otherwise the per-type
columns are derived and the metadata columns `extracted_at` and
`data_source` are appended last. -/
def transform_data_cols (data_type : String)
    (raw : List (List (String × Val))) : List String :=
  let cols := unionKeys raw
  if raw.isEmpty || cols.isEmpty then cols
  else transformAddedCols data_type cols ++ ["extracted_at", "data_source"]

/-- `main.py` `transform_data`, lines 281-283, at row granularity: the two
metadata cells appended to each row of a non-empty frame —
`df['extracted_at'] = datetime.now()` and `df['data_source'] = 'mailchimp'`
with `now` the wall-clock time at transform. -/
def addMetadata (now : ℚ) (row : List (String × Val)) : List (String × Val) :=
  row ++ [("extracted_at", Val.time now), ("data_source", Val.str "mailchimp")]

/-- One row of `extract_lists` output, restricted to the identifying
fields `run_etl` consumes. -/
structure ListItem where
  list_id : String
  list_name : String
deriving DecidableEq, Repr

/-- `main.py` `run_etl`, lines 413-417: the list ids whose members get
extracted — the explicit `specific_list_ids` when given, otherwise
`[item['list_id'] for item in lists_data[:3]]`. -/
def memberListIds (lists_data : List ListItem)
    (specific_list_ids : Option (List String)) : List String :=
  match specific_list_ids with
  | some ids => ids
  | none => (lists_data.take 3).map (·.list_id)

/-- `main.py` `run_etl`, lines 419-421: `all_members_data` accumulated by
calling `extract_members` (here abstracted as the per-list member-row
source `fetch`) on each selected list id and extending the list. -/
def collectMembers (fetch : String → List MemberRow) (ids : List String) :
    List MemberRow :=
  ids.foldr (fun i acc => fetch i ++ acc) []

/-- A concrete member entity, used to instantiate the pagination theorem. -/
def sampleMember : Member :=
  { id := "m1"
    email_address := "m1@example.org"
    status := "subscribed"
    timestamp_signup := none
    timestamp_opt := none
    location := none
    ip_signup := none
    ip_opt := none
    language := none
    member_rating := none
    email_client := none
    tags_count := none }

/-- A concrete transformed campaigns row, used to instantiate the loader
theorem. -/
def sampleCampaign : CampaignRow :=
  { open_rate := 23 / 100, click_rate := 3 / 100, emails_sent := 1000 }

/-- A concrete `extract_lists` result with four lists, used to instantiate
the `run_etl` member-limit theorem. -/
def fourLists : List ListItem :=
  [⟨"lidA", "List A"⟩, ⟨"lidB", "List B"⟩, ⟨"lidC", "List C"⟩,
   ⟨"lidD", "List D"⟩]

/-! ## Theorems -/

/-- C1: in `_make_request`, `raise_for_status()` runs before the 429 check
and raises `HTTPError` for every 4xx status, so a first attempt answered
429 surfaces to the caller as an error — the retry branch is unreachable —
whereas an immediate 200 returns the body with no delay.  This exhibits
the code-level divergence from the claimed sleep-and-retry behaviour. -/
theorem make_request_429_surfaces_as_error :
    make_request [⟨429, "Too Many Requests"⟩, ⟨200, "B"⟩] =
      Except.error "HTTPError" ∧
    make_request [⟨200, "B"⟩] = Except.ok ("B", 0) := by
  constructor <;> rfl

lemma cut_eq_low_iff (x : ℚ) : cutOpenRate x = some "Low" ↔ 0 < x ∧ x ≤ 15 := by
  unfold cutOpenRate
  split_ifs with h1 h2 h3 h4 <;> simp_all

lemma cut_eq_medium_iff (x : ℚ) :
    cutOpenRate x = some "Medium" ↔ 15 < x ∧ x ≤ 25 := by
  unfold cutOpenRate
  split_ifs with h1 h2 h3 h4 <;> simp_all

lemma cut_eq_high_iff (x : ℚ) :
    cutOpenRate x = some "High" ↔ 25 < x ∧ x ≤ 35 := by
  unfold cutOpenRate
  split_ifs with h1 h2 h3 h4 <;> simp_all <;> intro h <;> linarith

lemma cut_eq_excellent_iff (x : ℚ) :
    cutOpenRate x = some "Excellent" ↔ 35 < x ∧ x ≤ 100 := by
  unfold cutOpenRate
  split_ifs with h1 h2 h3 h4 <;> simp_all <;> intro h <;> linarith

lemma cut_eq_none_iff (x : ℚ) : cutOpenRate x = none ↔ x ≤ 0 ∨ 100 < x := by
  unfold cutOpenRate
  split_ifs with h1 h2 h3 h4 <;> simp_all
  · linarith [h1.2]
  · constructor <;> linarith [h2.1, h2.2]
  · constructor <;> linarith [h3.1, h3.2]
  · linarith [h4.1]
  · by_cases hx : 0 < x
    · exact Or.inr (h4 (h3 (h2 (h1 hx))))
    · exact Or.inl (by linarith)

/-- C2 counterexample: at `open_rate = 0.15` the scaled value `15` falls in
the claim's `'Medium'` interval `[15,25)`, but `pd.cut` with right-closed
bins labels it `'Low'` (interval `(0,15]`). -/
theorem performance_category_boundary_counterexample :
    performance_category (15 / 100 : ℚ) = some "Low" ∧
    performance_category (15 / 100 : ℚ) ≠ some "Medium" := by
  constructor
  · norm_num [performance_category, cutOpenRate]
  · norm_num [performance_category, cutOpenRate]
    decide

/-- C2 (amended): `pd.cut` uses right-closed bins, so
`performance_category` is `'Low'` iff `open_rate*100 ∈ (0,15]`, `'Medium'`
iff it is in `(15,25]`, `'High'` iff in `(25,35]`, `'Excellent'` iff in
`(35,100]`, and the category is null iff `open_rate*100` is outside
`(0,100]`. -/
theorem performance_category_buckets (r : ℚ) :
    (performance_category r = some "Low" ↔ 0 < r * 100 ∧ r * 100 ≤ 15) ∧
    (performance_category r = some "Medium" ↔ 15 < r * 100 ∧ r * 100 ≤ 25) ∧
    (performance_category r = some "High" ↔ 25 < r * 100 ∧ r * 100 ≤ 35) ∧
    (performance_category r = some "Excellent" ↔
      35 < r * 100 ∧ r * 100 ≤ 100) ∧
    (performance_category r = none ↔ r * 100 ≤ 0 ∨ 100 < r * 100) :=
  ⟨cut_eq_low_iff (r * 100), cut_eq_medium_iff (r * 100),
   cut_eq_high_iff (r * 100), cut_eq_excellent_iff (r * 100),
   cut_eq_none_iff (r * 100)⟩

/-- C3 counterexample: with `unique_opens = 1`, `unique_clicks = 0`,
`emails_sent = 0` the division yields `+inf`, which `fillna(0)` does not
replace, so `engagement_rate` is not `0` as the claim states. -/
theorem engagement_rate_inf_counterexample :
    engagement_rate 1 0 0 = PdVal.inf ∧ engagement_rate 1 0 0 ≠ PdVal.num 0 := by
  constructor
  · norm_num [engagement_rate, pdDiv, pdMulC, fillna0]
  · norm_num [engagement_rate, pdDiv, pdMulC, fillna0]
    decide

/-- C3 (amended): `engagement_rate` equals
`(unique_opens + unique_clicks) / emails_sent * 100` when
`emails_sent > 0`; when `emails_sent = 0` it is `0` only if the numerator
is also `0` (the `0/0` NaN filled by `fillna(0)`), and `+inf` when the
numerator is positive. -/
theorem engagement_rate_spec (o c n : ℚ) :
    (0 < n → engagement_rate o c n = PdVal.num ((o + c) / n * 100)) ∧
    (n = 0 → o + c = 0 → engagement_rate o c n = PdVal.num 0) ∧
    (n = 0 → 0 < o + c → engagement_rate o c n = PdVal.inf) := by
  unfold engagement_rate pdDiv pdMulC fillna0
  refine ⟨fun hn => ?_, fun hn hz => ?_, fun hn hp => ?_⟩
  · have : n ≠ 0 := ne_of_gt hn
    simp [this]
  · simp [hn, hz]
  · simp [hn, hp]

/-- Witness for C3's amended theorem at concrete inputs. -/
theorem engagement_rate_spec_witness :
    engagement_rate 1 1 2 = PdVal.num 100 ∧
    engagement_rate 0 0 0 = PdVal.num 0 ∧
    engagement_rate 2 0 0 = PdVal.inf := by
  refine ⟨?_, ?_, ?_⟩
  · have h := (engagement_rate_spec 1 1 2).1 (by norm_num)
    norm_num at h
    exact h
  · exact (engagement_rate_spec 0 0 0).2.1 rfl (by norm_num)
  · exact (engagement_rate_spec 2 0 0).2.2 rfl (by norm_num)

/-- C5 counterexample: with `userEngagementDuration = 1` and `sessions = 0`
the derived entry is `+inf` (left untouched by `fillna(0)`), not `0`; and
when a source column is absent the `avg_engagement_duration` column is not
created at all rather than being `0`. -/
theorem avg_engagement_counterexample :
    addAvgEngagement ⟨some [1], some [0]⟩ = some [PdVal.inf] ∧
    PdVal.inf ≠ PdVal.num 0 ∧
    addAvgEngagement ⟨none, some [0]⟩ = none := by
  refine ⟨?_, by decide, rfl⟩
  norm_num [addAvgEngagement, avgEngagementEntry, pdDiv, fillna0]

/-- C5 (amended): when both columns are present,
`avg_engagement_duration = userEngagementDuration / sessions` for
`sessions > 0`; for `sessions = 0` it is `0` only when the duration is
also `0` and `+inf` when the duration is positive; when either column is
absent, no `avg_engagement_duration` column is produced. -/
theorem avg_engagement_spec (d s : ℚ) :
    (0 < s → avgEngagementEntry d s = PdVal.num (d / s)) ∧
    (s = 0 → d = 0 → avgEngagementEntry d s = PdVal.num 0) ∧
    (s = 0 → 0 < d → avgEngagementEntry d s = PdVal.inf) ∧
    (∀ ds, addAvgEngagement ⟨some ds, none⟩ = none) ∧
    (∀ ss, addAvgEngagement ⟨none, ss⟩ = none) ∧
    (∀ ds ss, addAvgEngagement ⟨some ds, some ss⟩ =
      some ((ds.zip ss).map fun p => avgEngagementEntry p.1 p.2)) := by
  refine ⟨fun hs => ?_, fun hs hd => ?_, fun hs hd => ?_,
    fun ds => rfl, fun ss => ?_, fun ds ss => rfl⟩
  · unfold avgEngagementEntry pdDiv fillna0
    have : s ≠ 0 := ne_of_gt hs
    simp [this]
  · unfold avgEngagementEntry pdDiv fillna0
    simp [hs, hd]
  · unfold avgEngagementEntry pdDiv fillna0
    simp [hs, hd]
  · unfold addAvgEngagement
    rfl

/-- Witness for C5's amended theorem at concrete inputs. -/
theorem avg_engagement_spec_witness :
    avgEngagementEntry 6 2 = PdVal.num 3 ∧
    avgEngagementEntry 0 0 = PdVal.num 0 ∧
    avgEngagementEntry 1 0 = PdVal.inf := by
  refine ⟨?_, ?_, ?_⟩
  · have h := (avg_engagement_spec 6 2).1 (by norm_num)
    norm_num at h
    exact h
  · exact (avg_engagement_spec 0 0).2.1 rfl rfl
  · exact (avg_engagement_spec 1 0).2.2.1 rfl (by norm_num)

/-- C7: `country_name` is the static table's value for a mapped
`country_code` and the original code otherwise; in particular `'UA'` maps
to `'Ukraine'` and the unmapped `'XX'` stays `'XX'` (a null code stays
null, which is also "the original value"). -/
theorem country_name_fallback :
    (∀ c : String, country_name (some c) = some ((country_mapping c).getD c)) ∧
    country_name none = none ∧
    country_name (some "UA") = some "Ukraine" ∧
    country_name (some "XX") = some "XX" := by
  refine ⟨fun c => ?_, rfl, by decide, by decide⟩
  unfold country_name
  cases h : country_mapping c <;> simp [h]

lemma extract_loop_complete (list_id : String) (ms : List Member) :
    ∀ fuel offset reqs, ms.length - offset ≤ 1000 * fuel →
      extract_members_loop list_id ms (fuel + 1) offset reqs =
        some ((ms.drop offset).map (flattenMember list_id),
          reqs + (ms.length - offset + 999) / 1000 + 1) := by
  intro fuel
  induction fuel with
  | zero =>
    intro offset reqs h
    have hle : ms.length ≤ offset := by omega
    have hdrop : ms.drop offset = [] := List.drop_eq_nil_of_le hle
    have hrem : ms.length - offset = 0 := by omega
    unfold extract_members_loop memberPage
    rw [hdrop]
    simp [hrem]
  | succ fuel ih =>
    intro offset reqs h
    by_cases hle : ms.length ≤ offset
    · have hdrop : ms.drop offset = [] := List.drop_eq_nil_of_le hle
      have hrem : ms.length - offset = 0 := by omega
      unfold extract_members_loop memberPage
      rw [hdrop]
      simp [hrem]
    · push_neg at hle
      have hdropne : ms.drop offset ≠ [] := by
        intro hcon
        have hlen := List.length_drop offset ms
        rw [hcon] at hlen
        simp at hlen
        omega
      have hpage : memberPage ms offset ≠ [] := by
        unfold memberPage
        intro hcon
        rcases List.exists_cons_of_ne_nil hdropne with ⟨a, t, hat⟩
        rw [hat] at hcon
        simp at hcon
      have hfuel2 : ms.length - (offset + 1000) ≤ 1000 * fuel := by omega
      have ihh := ih (offset + 1000) (reqs + 1) hfuel2
      have hpageb : (memberPage ms offset).isEmpty = false := by
        simpa [List.isEmpty_iff] using hpage
      unfold extract_members_loop
      simp only [hpageb, Bool.false_eq_true, if_false, ihh]
      have hsplit : memberPage ms offset ++ ms.drop (offset + 1000) =
          ms.drop offset := by
        unfold memberPage
        have hdd : ms.drop (offset + 1000) = (ms.drop offset).drop 1000 := by
          rw [List.drop_drop, Nat.add_comm]
        rw [hdd, List.take_append_drop]
      have harith : reqs + 1 + (ms.length - (offset + 1000) + 999) / 1000 + 1 =
          reqs + (ms.length - offset + 999) / 1000 + 1 := by
        omega
      rw [← List.map_append, hsplit, harith]

/-- C4: for a member source backed by the finite member list `ms` and
paged with size 1000, `extract_members` terminates (one fuel unit per page
suffices) and returns every page's rows flattened and concatenated in
order — i.e. all of `ms` — issuing one request per non-empty page plus the
final empty-page request. -/
theorem extract_members_concatenates_pages (list_id : String)
    (ms : List Member) (fuel : Nat) (h : ms.length ≤ 1000 * fuel) :
    extract_members list_id ms (fuel + 1) =
      some (ms.map (flattenMember list_id), (ms.length + 999) / 1000 + 1) := by
  have hh := extract_loop_complete list_id ms fuel 0 0 (by omega)
  simpa [extract_members] using hh

/-- Witness for C4: a 2437-member source serves pages of sizes
`[1000, 1000, 437, 0]`; the extractor returns exactly 2437 rows and issues
exactly 4 page requests. -/
theorem extract_members_concatenates_pages_witness :
    extract_members "list1" (List.replicate 2437 sampleMember) 4 =
      some ((List.replicate 2437 sampleMember).map (flattenMember "list1"),
        4) ∧
    ((List.replicate 2437 sampleMember).map (flattenMember "list1")).length =
      2437 := by
  have h := extract_members_concatenates_pages "list1"
    (List.replicate 2437 sampleMember) 3
    (by rw [List.length_replicate]; norm_num)
  rw [List.length_replicate] at h
  have h4 : (2437 + 999) / 1000 + 1 = 4 := by norm_num
  rw [h4] at h
  refine ⟨h, ?_⟩
  rw [List.length_map, List.length_replicate]

lemma sheetName_lists : sheetName "lists" = "Lists" := rfl

lemma sheetName_campaigns : sheetName "campaigns" = "Campaigns" := rfl

lemma sheetName_members : sheetName "members" = "Members" := rfl

lemma empty_lists_skipped (c : Option (List CampaignRow))
    (m : Option (List MemberSRow)) :
    "Lists" ∉ excelSheets ⟨some [], c, m⟩ ∧
    "lists" ∉ csvTables ⟨some [], c, m⟩ ∧
    "lists" ∉ jsonKeys ⟨some [], c, m⟩ := by
  refine ⟨?_, ?_, ?_⟩ <;>
  · rcases c with _ | ca <;> rcases m with _ | me <;>
      simp only [excelSheets, csvTables, jsonKeys, summaryDashboard,
        sheetName] <;>
      split_ifs <;> simp_all <;> decide

lemma empty_campaigns_skipped (l : Option (List ListRow))
    (m : Option (List MemberSRow)) :
    "Campaigns" ∉ excelSheets ⟨l, some [], m⟩ ∧
    "campaigns" ∉ csvTables ⟨l, some [], m⟩ ∧
    "campaigns" ∉ jsonKeys ⟨l, some [], m⟩ := by
  refine ⟨?_, ?_, ?_⟩ <;>
  · rcases l with _ | ls <;> rcases m with _ | me <;>
      simp only [excelSheets, csvTables, jsonKeys, summaryDashboard,
        sheetName] <;>
      split_ifs <;> simp_all <;> decide

lemma empty_members_skipped (l : Option (List ListRow))
    (c : Option (List CampaignRow)) :
    "Members" ∉ excelSheets ⟨l, c, some []⟩ ∧
    "members" ∉ csvTables ⟨l, c, some []⟩ ∧
    "members" ∉ jsonKeys ⟨l, c, some []⟩ := by
  refine ⟨?_, ?_, ?_⟩ <;>
  · rcases l with _ | ls <;> rcases c with _ | ca <;>
      simp only [excelSheets, csvTables, jsonKeys, summaryDashboard,
        sheetName] <;>
      split_ifs <;> simp_all <;> decide

/-- C6: with an empty `lists` table and a non-empty `campaigns` table, the
excel workbook gets a `Campaigns` sheet and a `Dashboard` sheet (the
campaign summary rows make the dashboard non-empty) but no `Lists` sheet;
and in general an empty table contributes no sheet in the excel format and
no file/key in the csv and json formats. -/
theorem load_data_skips_empty_tables (cs : List CampaignRow) (h : cs ≠ []) :
    ("Campaigns" ∈ excelSheets ⟨some [], some cs, none⟩ ∧
     "Dashboard" ∈ excelSheets ⟨some [], some cs, none⟩ ∧
     "Lists" ∉ excelSheets ⟨some [], some cs, none⟩) ∧
    ∀ fr : Frames,
      (fr.lists = some [] → "Lists" ∉ excelSheets fr ∧
        "lists" ∉ csvTables fr ∧ "lists" ∉ jsonKeys fr) ∧
      (fr.campaigns = some [] → "Campaigns" ∉ excelSheets fr ∧
        "campaigns" ∉ csvTables fr ∧ "campaigns" ∉ jsonKeys fr) ∧
      (fr.members = some [] → "Members" ∉ excelSheets fr ∧
        "members" ∉ csvTables fr ∧ "members" ∉ jsonKeys fr) := by
  constructor
  · obtain ⟨a, as, rfl⟩ := List.exists_cons_of_ne_nil h
    refine ⟨?_, ?_, ?_⟩ <;>
      simp [excelSheets, summaryDashboard, sheetName, pyCapitalize]
  · rintro ⟨l, c, m⟩
    refine ⟨fun hl => ?_, fun hc => ?_, fun hm => ?_⟩
    · obtain rfl : l = some [] := hl
      exact empty_lists_skipped c m
    · obtain rfl : c = some [] := hc
      exact empty_campaigns_skipped l m
    · obtain rfl : m = some [] := hm
      exact empty_members_skipped l c

/-- Witness for C6 at a concrete one-row campaigns table. -/
theorem load_data_skips_empty_tables_witness :
    "Campaigns" ∈ excelSheets ⟨some [], some [sampleCampaign], none⟩ ∧
    "Dashboard" ∈ excelSheets ⟨some [], some [sampleCampaign], none⟩ ∧
    "Lists" ∉ excelSheets ⟨some [], some [sampleCampaign], none⟩ :=
  (load_data_skips_empty_tables [sampleCampaign] (by simp)).1

/-- C8 counterexample: an empty input short-circuits and is returned
unchanged, so the table produced for empty raw data has no columns at all —
in particular neither `extracted_at` nor `data_source` — contradicting the
claim that every transformed table carries them. -/
theorem transform_empty_lacks_metadata :
    transform_data_cols "lists" [] = [] ∧
    "extracted_at" ∉ transform_data_cols "lists" [] ∧
    "data_source" ∉ transform_data_cols "lists" [] := by
  refine ⟨rfl, ?_, ?_⟩ <;> simp [transform_data_cols, unionKeys]

/-- C8 (amended): for every data type and non-empty input (with at least
one key), the transformed table's column list ends with `extracted_at` and
`data_source`, and each row gains the cells
`('extracted_at', now)` and `('data_source', 'mailchimp')` with `now` the
wall-clock time at transform; an empty input is returned unchanged, with
no columns added. -/
theorem transform_metadata_columns (data_type : String)
    (raw : List (List (String × Val))) (now : ℚ) (row : List (String × Val))
    (hraw : raw ≠ []) (hcols : unionKeys raw ≠ []) :
    "extracted_at" ∈ transform_data_cols data_type raw ∧
    "data_source" ∈ transform_data_cols data_type raw ∧
    ("extracted_at", Val.time now) ∈ addMetadata now row ∧
    ("data_source", Val.str "mailchimp") ∈ addMetadata now row ∧
    transform_data_cols data_type [] = [] := by
  have h1 : raw.isEmpty = false := by simpa [List.isEmpty_iff] using hraw
  have h2 : (unionKeys raw).isEmpty = false := by
    simpa [List.isEmpty_iff] using hcols
  refine ⟨?_, ?_, ?_, ?_, rfl⟩ <;>
    simp [transform_data_cols, addMetadata, h1, h2]

/-- Witness for C8's amended theorem at a concrete one-row input. -/
theorem transform_metadata_columns_witness :
    "extracted_at" ∈ transform_data_cols "lists" [[("list_id", Val.str "a")]] ∧
    "data_source" ∈ transform_data_cols "lists" [[("list_id", Val.str "a")]] := by
  have h := transform_metadata_columns "lists" [[("list_id", Val.str "a")]]
    0 [] (by simp) (by simp [unionKeys])
  exact ⟨h.1, h.2.1⟩

/-- C9: with `include_members = true` and no explicit list ids, `run_etl`
extracts members only for the ids of the first three extracted lists, so
when the lists have pairwise distinct ids every list beyond the third
contributes no member rows. -/
theorem run_etl_member_limit (lists_data : List ListItem)
    (fetch : String → List MemberRow)
    (hnodup : (lists_data.map (·.list_id)).Nodup) :
    memberListIds lists_data none = (lists_data.take 3).map (·.list_id) ∧
    collectMembers fetch (memberListIds lists_data none) =
      collectMembers fetch ((lists_data.take 3).map (·.list_id)) ∧
    ∀ i (hi : 3 ≤ i) (hlt : i < lists_data.length),
      (lists_data.get ⟨i, hlt⟩).list_id ∉ memberListIds lists_data none := by
  refine ⟨rfl, rfl, fun i hi hlt hmem => ?_⟩
  rw [memberListIds] at hmem
  rw [List.mem_map] at hmem
  obtain ⟨a, ha, hid⟩ := hmem
  rw [List.mem_iff_get] at ha
  obtain ⟨⟨j, hj⟩, hja⟩ := ha
  have hjlen : j < lists_data.length := by
    have := hj
    simp [List.length_take] at this
    omega
  have hj3 : j < 3 := by
    have := hj
    simp [List.length_take] at this
    omega
  have hget : (lists_data.take 3).get ⟨j, hj⟩ = lists_data.get ⟨j, hjlen⟩ := by
    simp [List.get_eq_getElem, List.getElem_take]
  have heq : (lists_data.map (·.list_id)).get
      ⟨j, by simpa using hjlen⟩ =
      (lists_data.map (·.list_id)).get ⟨i, by simpa using hlt⟩ := by
    simp only [List.get_eq_getElem, List.getElem_map]
    simp only [List.get_eq_getElem] at hid hja hget
    rw [← hid, ← hja, hget]
  have := List.Nodup.get_inj_iff hnodup |>.mp heq
  simp at this
  omega

/-- Witness for C9 at a concrete four-list extraction. -/
theorem run_etl_member_limit_witness :
    memberListIds fourLists none = ["lidA", "lidB", "lidC"] ∧
    "lidD" ∉ memberListIds fourLists none := by
  have h := run_etl_member_limit fourLists (fun _ => []) (by decide)
  refine ⟨?_, ?_⟩
  · rw [h.1]
    rfl
  · have h3 := h.2.2 3 (by norm_num) (by decide)
    simpa [fourLists] using h3

/-- C10: for an `output_format` whose lowercase form is none of `csv`,
`excel`, `json`, `load_data` in both pipelines raises (`filename` is never
assigned, so the final logging statement raises `NameError`, re-raised by
the `except` block) and writes no per-table output file, while the output
directory has already been created. -/
theorem load_data_unknown_format_raises (fr : Frames)
    (fmt output_path ts : String)
    (h1 : pyLower fmt ≠ "csv") (h2 : pyLower fmt ≠ "excel")
    (h3 : pyLower fmt ≠ "json") :
    (∃ e, (load_data_mc fr fmt output_path ts).result = .error e) ∧
    (load_data_mc fr fmt output_path ts).filesWritten = [] ∧
    (load_data_mc fr fmt output_path ts).dirCreated = true ∧
    (∃ e, (load_data_ga fmt output_path ts).result = .error e) ∧
    (load_data_ga fmt output_path ts).filesWritten = [] ∧
    (load_data_ga fmt output_path ts).dirCreated = true := by
  unfold load_data_mc load_data_ga
  simp [h1, h2, h3]

/-- Witness for C10 at the concrete unknown format `parquet`. -/
theorem load_data_unknown_format_raises_witness :
    (∃ e, (load_data_mc ⟨none, none, none⟩ "parquet" "mailchimp_data"
      "20240101_000000").result = .error e) ∧
    (load_data_mc ⟨none, none, none⟩ "parquet" "mailchimp_data"
      "20240101_000000").filesWritten = [] ∧
    (∃ e, (load_data_ga "parquet" "mailchimp_data"
      "20240101_000000").result = .error e) ∧
    (load_data_ga "parquet" "mailchimp_data"
      "20240101_000000").filesWritten = [] := by
  have h := load_data_unknown_format_raises ⟨none, none, none⟩ "parquet"
    "mailchimp_data" "20240101_000000" (by decide) (by decide) (by decide)
  exact ⟨h.1, h.2.1, h.2.2.2.1, h.2.2.2.2.1⟩

end ETL
